import Mathlib

/-!
Shallow embedding of the OTP lifecycle engine, rate limiter, password-reset
endpoint, Google OAuth state handshake and Haitian phone-number utilities of
the `resend` service (src/routes/email-otp.js, src/server.js,
src/unnamed/part_000, src/unnamed/part_001).

Times are modelled as the number of milliseconds of `Date.now()`: `Nat` for
the OTP/OAuth records (only additions and order comparisons occur there) and
`Int` for rate-limit timestamps (the JS code subtracts the window length from
`now`, which can go negative). In-memory `Map`s keyed by strings are
modelled extensionally as functions `String → Option _` / `String → List _`
(a JS `Map` read by `get`/`has` is exactly its key-to-value function;
`rateLimitStore.get(identifier) || []` makes an absent list and an empty
list indistinguishable).
-/

namespace Resend

/-- Constant `OTP_EXPIRY_TIME = 10 * 60 * 1000` (src/routes/email-otp.js line 29). -/
def OTP_EXPIRY_TIME : Nat := 10 * 60 * 1000

/-- Constant `MAX_OTP_ATTEMPTS = 3` (src/routes/email-otp.js line 30). -/
def MAX_OTP_ATTEMPTS : Nat := 3

/-- Constant `RATE_LIMIT_WINDOW = 15 * 60 * 1000` (src/routes/email-otp.js line 34). -/
def RATE_LIMIT_WINDOW : Int := 15 * 60 * 1000

/-- Constant `MAX_REQUESTS_PER_WINDOW = 5` (src/routes/email-otp.js line 35). -/
def MAX_REQUESTS_PER_WINDOW : Nat := 5

/-- Constant `OAUTH_STATE_EXPIRY = 10 * 60 * 1000` (src/server.js line 88). -/
def OAUTH_STATE_EXPIRY : Nat := 10 * 60 * 1000

/-- The record stored in `otpStore` for one identifier
(src/routes/email-otp.js lines 61-68). -/
structure OtpData where
  otp : String
  purpose : String
  attempts : Nat
  createdAt : Nat
  expiresAt : Nat
  verified : Bool
deriving DecidableEq, Repr

/-- The in-memory `otpStore` `Map`, as its key-to-value function. -/
def OtpStore : Type := String → Option OtpData

/-- Map update `otpStore.set(email, otpData)`. -/
def OtpStore.set (s : OtpStore) (k : String) (v : OtpData) : OtpStore :=
  fun k' => if k' = k then some v else s k'

/-- Map removal `otpStore.delete(email)`. -/
def OtpStore.del (s : OtpStore) (k : String) : OtpStore :=
  fun k' => if k' = k then none else s k'

/-- The empty store. -/
def OtpStore.empty : OtpStore := fun _ => none

/-- The `{ isValid, error }` / `{ isValid, purpose }` objects returned by
`verifyOTP` (src/routes/email-otp.js lines 85-117): a field the JS object
lacks is `none`. -/
structure VerifyResult where
  isValid : Bool
  error : Option String
  purpose : Option String
deriving DecidableEq, Repr

/-- Function `storeOTP(email, otp, purpose)` at clock value `now`
(src/routes/email-otp.js lines 58-80): builds the record with `attempts = 0`
and `expiresAt = now + OTP_EXPIRY_TIME` and overwrites any record stored
under `email`. The `setTimeout` body it schedules is `expiryTimerFire`
below; the returned pair is (updated store, the stored `otpData`). -/
def storeOTP (s : OtpStore) (email otp purpose : String) (now : Nat) :
    OtpStore × OtpData :=
  let otpData : OtpData :=
    { otp := otp, purpose := purpose, attempts := 0, createdAt := now,
      expiresAt := now + OTP_EXPIRY_TIME, verified := false }
  (s.set email otpData, otpData)

/-- The body of the `setTimeout` scheduled by `storeOTP`
(src/routes/email-otp.js lines 73-77): delete the record exactly when the
optional-chained read `otpStore.get(email)?.otp` strictly equals the
scheduled `otp` — `undefined === otp` is false for the string `otp`, so an
absent record is left alone. -/
def expiryTimerFire (s : OtpStore) (email otp : String) : OtpStore :=
  if (s email).map OtpData.otp = some otp then s.del email else s

/-- Function `verifyOTP(email, enteredOTP, markAsUsed)` at clock value `now`
(src/routes/email-otp.js lines 82-118), returning the updated store with the
result object. Branches in source order: absent record; `now > expiresAt`;
`attempts >= MAX_OTP_ATTEMPTS`; `otp !== enteredOTP` (increment and
re-store); match with `markAsUsed` (delete); match without (set
`verified`). -/
def verifyOTP (s : OtpStore) (email enteredOTP : String) (markAsUsed : Bool)
    (now : Nat) : OtpStore × VerifyResult :=
  match s email with
  | none =>
      (s, { isValid := false,
            error := some "OTP not found or expired. Please request a new code.",
            purpose := none })
  | some otpData =>
      if otpData.expiresAt < now then
        (s.del email,
         { isValid := false,
           error := some "OTP has expired. Please request a new code.",
           purpose := none })
      else if MAX_OTP_ATTEMPTS ≤ otpData.attempts then
        (s.del email,
         { isValid := false,
           error := some "Too many failed attempts. Please request a new code.",
           purpose := none })
      else if otpData.otp ≠ enteredOTP then
        let updated := { otpData with attempts := otpData.attempts + 1 }
        (s.set email updated,
         { isValid := false,
           error := some ("Invalid OTP. " ++
             toString (MAX_OTP_ATTEMPTS - updated.attempts) ++
             " attempt(s) remaining."),
           purpose := none })
      else if markAsUsed then
        (s.del email, { isValid := true, error := none, purpose := some otpData.purpose })
      else
        (s.set email { otpData with verified := true },
         { isValid := true, error := none, purpose := some otpData.purpose })

/-- The `rateLimitStore` `Map`: `get(identifier) || []` reads an absent key
as the empty list, so the store is its identifier-to-list function. -/
def RateStore : Type := String → List Int

/-- Map update `rateLimitStore.set(identifier, requests)`. -/
def RateStore.set (s : RateStore) (k : String) (v : List Int) : RateStore :=
  fun k' => if k' = k then v else s k'

/-- The empty rate-limit store. -/
def RateStore.empty : RateStore := fun _ => []

/-- Function `checkRateLimit(identifier)` at clock value `now`
(src/routes/email-otp.js lines 42-56): prune timestamps `≤ now - RATE_LIMIT_WINDOW`,
reject when 5 or more remain (without writing back), otherwise store the
pruned list with `now` appended and accept. -/
def checkRateLimit (st : RateStore) (identifier : String) (now : Int) :
    RateStore × Bool :=
  let windowStart := now - RATE_LIMIT_WINDOW
  let requests := (st identifier).filter (fun timestamp => windowStart < timestamp)
  if MAX_REQUESTS_PER_WINDOW ≤ requests.length then
    (st, false)
  else
    (st.set identifier (requests ++ [now]), true)

/-- One entry of `global.oauthStates` (src/server.js lines 652-656 /
src/unnamed/part_001 lines 38-44): `{ state, redirectTo, timestamp }`. -/
structure StateData where
  state : String
  redirectTo : String
  timestamp : Nat
deriving DecidableEq, Repr

/-- The `global.oauthStates` `Map`, as its key-to-value function. -/
def StateStore : Type := String → Option StateData

/-- Map update `global.oauthStates.set(state, stateStore)`. -/
def StateStore.set (s : StateStore) (k : String) (v : StateData) : StateStore :=
  fun k' => if k' = k then some v else s k'

/-- Map removal `global.oauthStates.delete(state)`. -/
def StateStore.del (s : StateStore) (k : String) : StateStore :=
  fun k' => if k' = k then none else s k'

/-- The empty `oauthStates` store. -/
def StateStore.empty : StateStore := fun _ => none

/-- Function `cleanupOAuthStates()` at clock value `now` (src/server.js lines
171-178): delete every entry with `now - stateData.timestamp >
OAUTH_STATE_EXPIRY`. Truncated `Nat` subtraction agrees with the JS number
subtraction here: when `timestamp > now` both sides keep the entry. -/
def cleanupOAuthStates (s : StateStore) (now : Nat) : StateStore :=
  fun k =>
    match s k with
    | some stateData =>
        if OAUTH_STATE_EXPIRY < now - stateData.timestamp then none
        else some stateData
    | none => none

/-- What the Google OAuth callback handler does after its checks: either a
redirect to the error page, or the `fetch` of the Google token-exchange
endpoint (src/server.js line 784) with the matched state's data. -/
inductive CbOutcome where
  | redirectError (msg : String)
  | tokenExchange (stateData : StateData)
deriving DecidableEq, Repr

/-- The prefix of the GET handler of `/api/auth/google/callback` up to the external
token exchange (src/server.js lines 709-790), driven by the
`code`/`state`/`error` query parameters (absent = `none`) and whether
`GOOGLE_CLIENT_ID`/`GOOGLE_CLIENT_SECRET` are configured. Branches in
source order: a Google-reported error (line 725); missing `code` or `state`
(line 733); `state` not in `global.oauthStates` (line 744); then the state
entry is read and deleted (lines 753-755); missing credentials (line 766);
otherwise the token exchange is reached with the matched `stateData`. -/
def googleCallback (states : StateStore) (code state googleError : Option String)
    (hasCredentials : Bool) : StateStore × CbOutcome :=
  match googleError with
  | some ge =>
      (states, CbOutcome.redirectError ("Google authentication failed:" ++ ge))
  | none =>
      match code, state with
      | some _, some st =>
          match states st with
          | none =>
              (states,
               CbOutcome.redirectError "Invalid session state: session expired or invalid")
          | some stateData =>
              let states' := states.del st
              if hasCredentials then
                (states', CbOutcome.tokenExchange stateData)
              else
                (states',
                 CbOutcome.redirectError
                   "Server configuration error: missing Google OAuth credentials")
      | _, _ =>
          (states,
           CbOutcome.redirectError "Invalid authentication request: missing code or state")

/-- Character class of the email regex, non-whitespace and not the at sign (src/routes/email-otp.js line 317). -/
def isEmailChar (c : Char) : Bool := !c.isWhitespace && c != '@'

/-- Whether some index of `d` holds an interior dot: the dotted tail of the
regex, given that `d` is already known to be
free of whitespace and `'@'`. -/
def interiorDot (d : List Char) : Bool :=
  (List.range d.length).any fun i =>
    (d.get? i == some '.') && decide (0 < i) && decide (i + 1 < d.length)

/-- Test of `emailRegex` (src/routes/email-otp.js lines 317-318), the
anchored pattern local-part, at sign, domain with an interior dot: a
nonempty run of non-whitespace non-`@` characters, one `'@'`, then a
nonempty such run containing a `'.'` that is neither its first nor its last
character. -/
def emailRegexTest (s : String) : Bool :=
  let l := s.toList
  let localPart := l.takeWhile (fun c => c != '@')
  match l.dropWhile (fun c => c != '@') with
  | _ :: domain =>
      !localPart.isEmpty && localPart.all isEmailChar &&
      !domain.isEmpty && domain.all isEmailChar && interiorDot domain
  | [] => false

/-- Method `toLowerCase()` of JS strings (src/routes/email-otp.js line 315), as the
character-wise ASCII lowering (the inputs of interest are ASCII). -/
def jsToLowerCase (s : String) : String := String.mk (s.toList.map Char.toLower)

/-- Method `trim()` of JS strings (src/routes/email-otp.js line 315): strip leading and
trailing whitespace. -/
def jsTrim (s : String) : String :=
  String.mk (((s.toList.dropWhile Char.isWhitespace).reverse.dropWhile
    Char.isWhitespace).reverse)

/-- Test `email.includes(at sign)` (src/routes/email-otp.js line 309). -/
def includesAtSign (s : String) : Bool := s.toList.any (fun c => c == '@')

/-- The JSON response of the `/send-reset-otp` route: absent body fields
are `none`. -/
structure ResetResponse where
  status : Nat
  success : Option Bool := none
  message : Option String := none
  error : Option String := none
  emailId : Option String := none
deriving DecidableEq, Repr

/-- Route handler of POST `/send-reset-otp` (src/routes/email-otp.js lines
303-381) up to its response, at clock value `now`. Inputs replacing the
collaborators: `email` is `req.body.email` (`none` for a missing field — a
missing or empty string fails the same first check as in JS, where the
empty string is falsy); `userExists` is whether the Supabase `profiles` lookup finds the
normalized email; `otp` is the value `generateOTP()` returns; `emailSendOk`
and `emailIdGen` are the Resend call's outcome. Branches in source order:
missing `@` (line 309); regex failure (line 318); user not found (line 331,
responding success without touching the limiter or the store); rate limit
(line 340); `storeOTP` (line 347); send failure (line 360); success with
`emailId` (line 369). -/
def sendResetOtp (otps : OtpStore) (rates : RateStore) (email : Option String)
    (purpose : String) (userExists : Bool) (otp : String) (emailSendOk : Bool)
    (emailIdGen : Option String) (now : Nat) :
    OtpStore × RateStore × ResetResponse :=
  match email with
  | none => (otps, rates, { status := 400, error := some "Valid email address is required" })
  | some em =>
      if em = "" || !includesAtSign em then
        (otps, rates, { status := 400, error := some "Valid email address is required" })
      else
        let normalizedEmail := jsTrim (jsToLowerCase em)
        if !emailRegexTest normalizedEmail then
          (otps, rates, { status := 400, error := some "Invalid email format" })
        else if !userExists then
          (otps, rates,
           { status := 200, success := some true,
             message := some "If an account exists with this email, a password reset code has been sent." })
        else
          let rl := checkRateLimit rates (normalizedEmail ++ "_reset") (now : Int)
          if !rl.2 then
            (otps, rl.1,
             { status := 429,
               error := some "Too many password reset requests. Please try again in 15 minutes." })
          else
            let stored := storeOTP otps normalizedEmail otp purpose now
            if !emailSendOk then
              (stored.1, rl.1,
               { status := 500,
                 error := some "Failed to send password reset email. Please try again." })
            else
              (stored.1, rl.1,
               { status := 200, success := some true,
                 message := some "Password reset code sent successfully",
                 emailId := emailIdGen })

/-- Digit filter `phoneNumber.replace` of all non-digits by nothing (src/unnamed/part_000 lines 118, 132):
keep only the decimal digits. -/
def cleanDigits (s : String) : List Char := s.toList.filter Char.isDigit

/-- Function `isValidHaitianPhoneNumber(phoneNumber)` (src/unnamed/part_000 lines
117-129): the cleaned digits start with `509` with 11 digits total, or with
`09` with 10 digits, or with `9` with 9 digits. -/
def isValidHaitianPhoneNumber (s : String) : Bool :=
  let cleaned := cleanDigits s
  if cleaned.take 3 = ['5', '0', '9'] ∧ cleaned.length = 11 then true
  else if cleaned.take 2 = ['0', '9'] ∧ cleaned.length = 10 then true
  else if cleaned.take 1 = ['9'] ∧ cleaned.length = 9 then true
  else false

/-- Function `formatPhoneNumberForTwilio(phoneNumber)` (src/unnamed/part_000 lines
131-143): the same three shapes, canonicalized to `+509` followed by the
subscriber digits; `null` (`none`) otherwise. -/
def formatPhoneNumberForTwilio (s : String) : Option String :=
  let cleaned := cleanDigits s
  if cleaned.take 3 = ['5', '0', '9'] ∧ cleaned.length = 11 then
    some (String.mk ('+' :: cleaned))
  else if cleaned.take 2 = ['0', '9'] ∧ cleaned.length = 10 then
    some (String.mk ('+' :: '5' :: '0' :: '9' :: cleaned.drop 1))
  else if cleaned.take 1 = ['9'] ∧ cleaned.length = 9 then
    some (String.mk ('+' :: '5' :: '0' :: '9' :: cleaned))
  else
    none

/-- Attempt counters of every stored record stay within the configured
maximum. -/
def StoreAttemptsBounded (s : OtpStore) : Prop :=
  ∀ e d, s e = some d → d.attempts ≤ MAX_OTP_ATTEMPTS

theorem OtpStore.get_set_same (s : OtpStore) (k : String) (v : OtpData) :
    s.set k v k = some v := by
  simp [OtpStore.set]

theorem OtpStore.get_set_ne (s : OtpStore) (k k' : String) (v : OtpData)
    (h : k' ≠ k) : s.set k v k' = s k' := by
  simp [OtpStore.set, h]

theorem OtpStore.get_del_same (s : OtpStore) (k : String) : s.del k k = none := by
  simp [OtpStore.del]

theorem OtpStore.get_del_ne (s : OtpStore) (k k' : String) (h : k' ≠ k) :
    s.del k k' = s k' := by
  simp [OtpStore.del, h]

theorem StateStore.get_set_self (s : StateStore) (k : String) (v : StateData) :
    s.set k v k = some v := by
  simp [StateStore.set]

theorem StoreAttemptsBounded.del (s : OtpStore) (k : String)
    (hb : StoreAttemptsBounded s) : StoreAttemptsBounded (s.del k) := by
  intro e d h
  by_cases he : e = k
  · subst he
    rw [OtpStore.get_del_same] at h
    cases h
  · rw [OtpStore.get_del_ne _ _ _ he] at h
    exact hb e d h

theorem StoreAttemptsBounded.set (s : OtpStore) (k : String) (v : OtpData)
    (hv : v.attempts ≤ MAX_OTP_ATTEMPTS) (hb : StoreAttemptsBounded s) :
    StoreAttemptsBounded (s.set k v) := by
  intro e d h
  by_cases he : e = k
  · subst he
    rw [OtpStore.get_set_same] at h
    cases h
    exact hv
  · rw [OtpStore.get_set_ne _ _ _ _ he] at h
    exact hb e d h

theorem verifyOTP_absent (s : OtpStore) (e c : String) (m : Bool) (n : Nat)
    (h : s e = none) :
    verifyOTP s e c m n =
      (s, { isValid := false,
            error := some "OTP not found or expired. Please request a new code.",
            purpose := none }) := by
  unfold verifyOTP
  rw [h]

theorem verifyOTP_expired (s : OtpStore) (e c : String) (m : Bool) (n : Nat)
    (d : OtpData) (h : s e = some d) (hexp : d.expiresAt < n) :
    verifyOTP s e c m n =
      (s.del e,
       { isValid := false,
         error := some "OTP has expired. Please request a new code.",
         purpose := none }) := by
  unfold verifyOTP
  rw [h]
  simp [hexp]

theorem verifyOTP_locked (s : OtpStore) (e c : String) (m : Bool) (n : Nat)
    (d : OtpData) (h : s e = some d) (hexp : n ≤ d.expiresAt)
    (hatt : MAX_OTP_ATTEMPTS ≤ d.attempts) :
    verifyOTP s e c m n =
      (s.del e,
       { isValid := false,
         error := some "Too many failed attempts. Please request a new code.",
         purpose := none }) := by
  unfold verifyOTP
  rw [h]
  simp [Nat.not_lt.mpr hexp, hatt]

theorem verifyOTP_wrong (s : OtpStore) (e c : String) (m : Bool) (n : Nat)
    (d : OtpData) (h : s e = some d) (hexp : n ≤ d.expiresAt)
    (hatt : d.attempts < MAX_OTP_ATTEMPTS) (hne : d.otp ≠ c) :
    verifyOTP s e c m n =
      (s.set e { d with attempts := d.attempts + 1 },
       { isValid := false,
         error := some ("Invalid OTP. " ++
           toString (MAX_OTP_ATTEMPTS - (d.attempts + 1)) ++
           " attempt(s) remaining."),
         purpose := none }) := by
  unfold verifyOTP
  rw [h]
  simp [Nat.not_lt.mpr hexp, Nat.not_le.mpr hatt, hne]

theorem verifyOTP_match_consume (s : OtpStore) (e c : String) (n : Nat)
    (d : OtpData) (h : s e = some d) (hexp : n ≤ d.expiresAt)
    (hatt : d.attempts < MAX_OTP_ATTEMPTS) (heq : d.otp = c) :
    verifyOTP s e c true n =
      (s.del e, { isValid := true, error := none, purpose := some d.purpose }) := by
  unfold verifyOTP
  rw [h]
  simp [Nat.not_lt.mpr hexp, Nat.not_le.mpr hatt, heq]

theorem verifyOTP_match_mark (s : OtpStore) (e c : String) (n : Nat)
    (d : OtpData) (h : s e = some d) (hexp : n ≤ d.expiresAt)
    (hatt : d.attempts < MAX_OTP_ATTEMPTS) (heq : d.otp = c) :
    verifyOTP s e c false n =
      (s.set e { d with verified := true },
       { isValid := true, error := none, purpose := some d.purpose }) := by
  unfold verifyOTP
  rw [h]
  simp [Nat.not_lt.mpr hexp, Nat.not_le.mpr hatt, heq]

/-- C3: when both expiry (`now > expiresAt`) and attempt exhaustion
(`attempts ≥ 3`) hold for a stored record at the time of a `verifyOTP` call,
the result is the expired verdict (expiry is checked first), not the
too-many-attempts verdict, and the record is deleted. -/
theorem otp_expiry_checked_before_lockout (s : OtpStore) (e c : String)
    (m : Bool) (now : Nat) (d : OtpData) (hs : s e = some d)
    (hexp : d.expiresAt < now) (hatt : MAX_OTP_ATTEMPTS ≤ d.attempts) :
    (verifyOTP s e c m now).2 =
      { isValid := false,
        error := some "OTP has expired. Please request a new code.",
        purpose := none } ∧
    (verifyOTP s e c m now).2.error ≠
      some "Too many failed attempts. Please request a new code." ∧
    (verifyOTP s e c m now).1 e = none := by
  rw [verifyOTP_expired s e c m now d hs hexp]
  refine ⟨rfl, by simp, ?_⟩
  exact OtpStore.get_del_same s e

/-- Witness for C3: a record whose expiry has passed and whose attempts are
exhausted at once answers with the expired verdict. -/
theorem otp_expiry_checked_before_lockout_witness :
    (verifyOTP (OtpStore.set OtpStore.empty "a@b.com"
        { otp := "123456", purpose := "signin", attempts := 3, createdAt := 0,
          expiresAt := 5, verified := false }) "a@b.com" "123456" true 6).2 =
      { isValid := false,
        error := some "OTP has expired. Please request a new code.",
        purpose := none } :=
  (otp_expiry_checked_before_lockout
    (OtpStore.set OtpStore.empty "a@b.com"
      { otp := "123456", purpose := "signin", attempts := 3, createdAt := 0,
        expiresAt := 5, verified := false }) "a@b.com" "123456" true 6
    { otp := "123456", purpose := "signin", attempts := 3, createdAt := 0,
      expiresAt := 5, verified := false } (by decide) (by decide) (by decide)).1

/-- C4: `checkRateLimit` accepts exactly when, after discarding stored
timestamps at or before `now - RATE_LIMIT_WINDOW`, fewer than
`MAX_REQUESTS_PER_WINDOW` remain; on acceptance the identifier's stored
sequence becomes the pruned sequence with `now` appended, and on rejection
the whole store is left unchanged (no timestamp is recorded). -/
theorem rateLimit_admission_spec (st : RateStore) (id : String) (now : Int) :
    ((checkRateLimit st id now).2 = true ↔
      ((st id).filter (fun timestamp => now - RATE_LIMIT_WINDOW < timestamp)).length <
        MAX_REQUESTS_PER_WINDOW) ∧
    ((checkRateLimit st id now).2 = true →
      (checkRateLimit st id now).1 id =
        ((st id).filter (fun timestamp => now - RATE_LIMIT_WINDOW < timestamp)) ++
          [now]) ∧
    ((checkRateLimit st id now).2 = false → (checkRateLimit st id now).1 = st) := by
  unfold checkRateLimit
  by_cases h : MAX_REQUESTS_PER_WINDOW ≤
      ((st id).filter (fun timestamp => now - RATE_LIMIT_WINDOW < timestamp)).length
  · simp [h, Nat.not_lt.mpr h]
  · simp [h, Nat.lt_of_not_le h, RateStore.set]

/-- Witness for C4: the first request of an identifier is accepted and its
timestamp is recorded. -/
theorem rateLimit_admission_spec_witness :
    (checkRateLimit RateStore.empty "a@b.com" 0).2 = true ∧
    (checkRateLimit RateStore.empty "a@b.com" 0).1 "a@b.com" = [0] := by
  have h := rateLimit_admission_spec RateStore.empty "a@b.com" 0
  refine ⟨h.1.mpr (by decide), ?_⟩
  have h2 := h.2.1 (h.1.mpr (by decide))
  simpa using h2

/-- C10: the expiry timer body deletes a record only when the code
currently stored for the identifier equals the code the timer was scheduled
for (and then it deletes exactly that identifier's record); firing against
an absent record is a no-op; and a timer belonging to a superseded OTP —
the store now holds a record issued with a different code — never deletes
the newer record. -/
theorem expiry_timer_guard :
    (∀ (s : OtpStore) (e c : String),
        expiryTimerFire s e c ≠ s →
        ∃ d, s e = some d ∧ d.otp = c ∧ expiryTimerFire s e c e = none ∧
          ∀ e', e' ≠ e → expiryTimerFire s e c e' = s e') ∧
    (∀ (s : OtpStore) (e c : String), s e = none → expiryTimerFire s e c = s) ∧
    (∀ (s : OtpStore) (e oldOtp newOtp p : String) (t : Nat),
        oldOtp ≠ newOtp →
        expiryTimerFire (storeOTP s e newOtp p t).1 e oldOtp =
          (storeOTP s e newOtp p t).1) := by
  refine ⟨?_, ?_, ?_⟩
  · intro s e c hne
    by_cases hmap : (s e).map OtpData.otp = some c
    · obtain ⟨d, hd, hotp⟩ := Option.map_eq_some'.mp hmap
      have hfire : expiryTimerFire s e c = s.del e := by
        unfold expiryTimerFire; exact if_pos hmap
      exact ⟨d, hd, hotp, by rw [hfire]; exact OtpStore.get_del_same s e,
        fun e' he' => by rw [hfire]; exact OtpStore.get_del_ne s e e' he'⟩
    · exact absurd (by unfold expiryTimerFire; exact if_neg hmap) hne
  · intro s e c h
    unfold expiryTimerFire
    rw [h]
    simp
  · intro s e oldOtp newOtp p t hne
    unfold expiryTimerFire
    rw [show (storeOTP s e newOtp p t).1 e =
        some { otp := newOtp, purpose := p, attempts := 0, createdAt := t,
               expiresAt := t + OTP_EXPIRY_TIME, verified := false } from
      OtpStore.get_set_same ..]
    refine if_neg ?_
    simpa using fun h => hne h.symm

/-- Witness for C10: the timer of an overwritten code leaves the newer
record in place. -/
theorem expiry_timer_guard_witness :
    expiryTimerFire (storeOTP OtpStore.empty "a@b.com" "222222" "signin" 0).1
        "a@b.com" "111111" =
      (storeOTP OtpStore.empty "a@b.com" "222222" "signin" 0).1 :=
  expiry_timer_guard.2.2 OtpStore.empty "a@b.com" "111111" "222222" "signin" 0
    (by decide)

/-- C1, counterexample: after a second `storeOTP` for the same identifier,
verifying the first code does fail, but with the wrong-code error, not with
the not-found error the claim states. -/
theorem otp_overwrite_old_code_not_notFound :
    (verifyOTP (storeOTP (storeOTP OtpStore.empty "a@b.com" "111111" "signin" 0).1
        "a@b.com" "222222" "signin" 1000).1 "a@b.com" "111111" true 1000).2.isValid =
      false ∧
    (verifyOTP (storeOTP (storeOTP OtpStore.empty "a@b.com" "111111" "signin" 0).1
        "a@b.com" "222222" "signin" 1000).1 "a@b.com" "111111" true 1000).2.error =
      some "Invalid OTP. 2 attempt(s) remaining." ∧
    (verifyOTP (storeOTP (storeOTP OtpStore.empty "a@b.com" "111111" "signin" 0).1
        "a@b.com" "222222" "signin" 1000).1 "a@b.com" "111111" true 1000).2.error ≠
      some "OTP not found or expired. Please request a new code." := by
  refine ⟨by decide, by decide, by decide⟩

/-- C1, amended: a second `storeOTP` for the same identifier overwrites the
prior record — the store then holds exactly the fresh record with
`attempts = 0`, so at most one record per identifier exists — and a
subsequent `verifyOTP` with the first (different) code returns invalid with
the wrong-code error `Invalid OTP. 2 attempt(s) remaining.` (incrementing
the fresh record's attempts), not the not-found error. -/
theorem otp_overwrite_semantics (s : OtpStore) (e otp1 otp2 p1 p2 : String)
    (t1 t2 now : Nat) (m : Bool) (hne : otp1 ≠ otp2)
    (hnow : now ≤ t2 + OTP_EXPIRY_TIME) :
    (storeOTP (storeOTP s e otp1 p1 t1).1 e otp2 p2 t2).1 e =
      some { otp := otp2, purpose := p2, attempts := 0, createdAt := t2,
             expiresAt := t2 + OTP_EXPIRY_TIME, verified := false } ∧
    (verifyOTP (storeOTP (storeOTP s e otp1 p1 t1).1 e otp2 p2 t2).1
        e otp1 m now).2 =
      { isValid := false,
        error := some "Invalid OTP. 2 attempt(s) remaining.",
        purpose := none } ∧
    (verifyOTP (storeOTP (storeOTP s e otp1 p1 t1).1 e otp2 p2 t2).1
        e otp1 m now).1 e =
      some { otp := otp2, purpose := p2, attempts := 1, createdAt := t2,
             expiresAt := t2 + OTP_EXPIRY_TIME, verified := false } := by
  have hne' : ¬ (otp2 = otp1) := fun h => hne h.symm
  refine ⟨OtpStore.get_set_same .., ?_, ?_⟩ <;>
    simp [storeOTP, verifyOTP, OtpStore.set, MAX_OTP_ATTEMPTS,
      Nat.not_lt.mpr hnow, hne'] <;>
    rfl

/-- Witness for the amended theorem of C1, at a concrete overwritten
identifier. -/
theorem otp_overwrite_semantics_witness :
    (verifyOTP (storeOTP (storeOTP OtpStore.empty "x@y.com" "111111" "signin" 0).1
        "x@y.com" "222222" "signin" 7).1 "x@y.com" "111111" false 7).2 =
      { isValid := false,
        error := some "Invalid OTP. 2 attempt(s) remaining.",
        purpose := none } :=
  (otp_overwrite_semantics OtpStore.empty "x@y.com" "111111" "222222" "signin"
    "signin" 0 7 7 false (by decide) (by decide)).2.1

/-- C2: the attempt counter of a stored record never exceeds
`MAX_OTP_ATTEMPTS` — every store-changing operation preserves the bound —
and from a fresh record three consecutive wrong-code verifications leave the
record present with `attempts = 3`, after which the next `verifyOTP`, with
any entered code including the correct one, answers the too-many-attempts
error and deletes the record. -/
theorem otp_attempts_cap_and_lockout (s : OtpStore) (e c p w1 w2 w3 w4 : String)
    (t n1 n2 n3 n4 : Nat) (m1 m2 m3 m4 : Bool)
    (hw1 : w1 ≠ c) (hw2 : w2 ≠ c) (hw3 : w3 ≠ c)
    (h1 : n1 ≤ t + OTP_EXPIRY_TIME) (h2 : n2 ≤ t + OTP_EXPIRY_TIME)
    (h3 : n3 ≤ t + OTP_EXPIRY_TIME) (h4 : n4 ≤ t + OTP_EXPIRY_TIME) :
    (∀ (s' : OtpStore) (e' c' p' : String) (t' : Nat),
        StoreAttemptsBounded s' → StoreAttemptsBounded (storeOTP s' e' c' p' t').1) ∧
    (∀ (s' : OtpStore) (e' c' : String) (m' : Bool) (n' : Nat),
        StoreAttemptsBounded s' → StoreAttemptsBounded (verifyOTP s' e' c' m' n').1) ∧
    ((verifyOTP (verifyOTP (verifyOTP (storeOTP s e c p t).1
          e w1 m1 n1).1 e w2 m2 n2).1 e w3 m3 n3).1 e =
        some { otp := c, purpose := p, attempts := 3, createdAt := t,
               expiresAt := t + OTP_EXPIRY_TIME, verified := false } ∧
      (verifyOTP (verifyOTP (verifyOTP (verifyOTP (storeOTP s e c p t).1
          e w1 m1 n1).1 e w2 m2 n2).1 e w3 m3 n3).1 e w4 m4 n4).2 =
        { isValid := false,
          error := some "Too many failed attempts. Please request a new code.",
          purpose := none } ∧
      (verifyOTP (verifyOTP (verifyOTP (verifyOTP (storeOTP s e c p t).1
          e w1 m1 n1).1 e w2 m2 n2).1 e w3 m3 n3).1 e w4 m4 n4).1 e = none) := by
  have hbound_store : ∀ (s' : OtpStore) (e' c' p' : String) (t' : Nat),
      StoreAttemptsBounded s' → StoreAttemptsBounded (storeOTP s' e' c' p' t').1 :=
    fun s' e' c' p' t' hb =>
      StoreAttemptsBounded.set s' e' _ (Nat.zero_le _) hb
  have hbound_verify : ∀ (s' : OtpStore) (e' c' : String) (m' : Bool) (n' : Nat),
      StoreAttemptsBounded s' → StoreAttemptsBounded (verifyOTP s' e' c' m' n').1 := by
    intro s' e' c' m' n' hb
    cases hs : s' e' with
    | none =>
        rw [verifyOTP_absent s' e' c' m' n' hs]
        exact hb
    | some d =>
        by_cases hexp : d.expiresAt < n'
        · rw [verifyOTP_expired s' e' c' m' n' d hs hexp]
          exact StoreAttemptsBounded.del s' e' hb
        · have hexp' : n' ≤ d.expiresAt := Nat.not_lt.mp hexp
          by_cases hatt : MAX_OTP_ATTEMPTS ≤ d.attempts
          · rw [verifyOTP_locked s' e' c' m' n' d hs hexp' hatt]
            exact StoreAttemptsBounded.del s' e' hb
          · have hatt' : d.attempts < MAX_OTP_ATTEMPTS := Nat.lt_of_not_le hatt
            by_cases hotp : d.otp = c'
            · cases m' with
              | true =>
                  rw [verifyOTP_match_consume s' e' c' n' d hs hexp' hatt' hotp]
                  exact StoreAttemptsBounded.del s' e' hb
              | false =>
                  rw [verifyOTP_match_mark s' e' c' n' d hs hexp' hatt' hotp]
                  exact StoreAttemptsBounded.set s' e' _ (hb e' d hs) hb
            · rw [verifyOTP_wrong s' e' c' m' n' d hs hexp' hatt' hotp]
              exact StoreAttemptsBounded.set s' e' _
                (Nat.succ_le_of_lt hatt') hb
  have hc1 : ¬ (c = w1) := fun h => hw1 h.symm
  have hc2 : ¬ (c = w2) := fun h => hw2 h.symm
  have hc3 : ¬ (c = w3) := fun h => hw3 h.symm
  refine ⟨hbound_store, hbound_verify, ?_, ?_, ?_⟩ <;>
    simp [storeOTP, verifyOTP, OtpStore.set, OtpStore.del, MAX_OTP_ATTEMPTS,
      Nat.not_lt.mpr h1, Nat.not_lt.mpr h2, Nat.not_lt.mpr h3, Nat.not_lt.mpr h4,
      hc1, hc2, hc3]

/-- Witness for C2: a fresh code locked out by three wrong entries rejects
even the correct code with the too-many-attempts error. -/
theorem otp_attempts_cap_and_lockout_witness :
    (verifyOTP (verifyOTP (verifyOTP (verifyOTP
        (storeOTP OtpStore.empty "w@z.com" "123456" "signin" 0).1
        "w@z.com" "000000" true 1).1 "w@z.com" "000001" true 2).1
        "w@z.com" "000002" true 3).1 "w@z.com" "123456" true 4).2 =
      { isValid := false,
        error := some "Too many failed attempts. Please request a new code.",
        purpose := none } :=
  (otp_attempts_cap_and_lockout OtpStore.empty "w@z.com" "123456" "signin"
    "000000" "000001" "000002" "123456" 0 1 2 3 4 true true true true
    (by decide) (by decide) (by decide) (by decide) (by decide) (by decide)
    (by decide)).2.2.2.1

/-- C5: verifying a live record with the correct code and
`markAsUsed = false` returns valid and leaves the record stored (with
`verified = true`), so a later consuming verification with the same code
also returns valid and deletes it; and a wrong-code verification made after
the non-consuming success still increments the attempts counter. -/
theorem otp_mark_verified_mode (s : OtpStore) (e c w : String) (m : Bool)
    (d : OtpData) (n1 n2 n3 : Nat) (hs : s e = some d) (hc : d.otp = c)
    (hatt : d.attempts < MAX_OTP_ATTEMPTS) (h1 : n1 ≤ d.expiresAt)
    (h2 : n2 ≤ d.expiresAt) (h3 : n3 ≤ d.expiresAt) (hw : w ≠ c) :
    (verifyOTP s e c false n1).2 =
      { isValid := true, error := none, purpose := some d.purpose } ∧
    (verifyOTP s e c false n1).1 e = some { d with verified := true } ∧
    (verifyOTP (verifyOTP s e c false n1).1 e c true n2).2 =
      { isValid := true, error := none, purpose := some d.purpose } ∧
    (verifyOTP (verifyOTP s e c false n1).1 e c true n2).1 e = none ∧
    (verifyOTP (verifyOTP s e c false n1).1 e w m n3).1 e =
      some { d with verified := true, attempts := d.attempts + 1 } := by
  have hmark := verifyOTP_match_mark s e c n1 d hs h1 hatt hc
  have hget : (verifyOTP s e c false n1).1 e = some { d with verified := true } := by
    rw [hmark]
    exact OtpStore.get_set_same ..
  refine ⟨by rw [hmark], hget, ?_, ?_, ?_⟩
  · rw [verifyOTP_match_consume _ e c n2 { d with verified := true } hget h2 hatt hc]
  · rw [verifyOTP_match_consume _ e c n2 { d with verified := true } hget h2 hatt hc]
    exact OtpStore.get_del_same ..
  · rw [verifyOTP_wrong _ e w m n3 { d with verified := true } hget h3 hatt
      (fun hcontra => hw (hc ▸ hcontra).symm)]
    exact OtpStore.get_set_same ..

/-- Witness for C5, at a concrete live record: the non-consuming success
keeps the code verifiable and the wrong code afterwards still costs an
attempt. -/
theorem otp_mark_verified_mode_witness :
    (verifyOTP (verifyOTP (OtpStore.set OtpStore.empty "m@n.com"
        { otp := "123456", purpose := "password_reset", attempts := 0,
          createdAt := 0, expiresAt := 600000, verified := false })
        "m@n.com" "123456" false 1).1 "m@n.com" "123456" true 2).2 =
      { isValid := true, error := none, purpose := some "password_reset" } :=
  (otp_mark_verified_mode (OtpStore.set OtpStore.empty "m@n.com"
      { otp := "123456", purpose := "password_reset", attempts := 0,
        createdAt := 0, expiresAt := 600000, verified := false })
    "m@n.com" "123456" "999999" true
    { otp := "123456", purpose := "password_reset", attempts := 0,
      createdAt := 0, expiresAt := 600000, verified := false } 1 2 3
    (OtpStore.get_set_same ..) (by decide) (by decide) (by decide) (by decide)
    (by decide) (by decide)).2.2.1

/-- C6: the Google token exchange is reached only for a callback whose
`state` value is present in the state store, and the matching entry is
deleted from the store before the exchange; hence a callback replaying the
same `state` against the store the first callback left behind fails with
the invalid-state error redirect and never reaches the exchange. -/
theorem oauth_exchange_requires_fresh_state :
    (∀ (states : StateStore) (code state ge : Option String) (creds : Bool)
        (d : StateData),
        (googleCallback states code state ge creds).2 = CbOutcome.tokenExchange d →
        ∃ st, state = some st ∧ states st = some d ∧
          (googleCallback states code state ge creds).1 st = none) ∧
    (∀ (states states' : StateStore) (c c' st : String) (creds creds' : Bool)
        (d : StateData),
        googleCallback states (some c) (some st) none creds =
          (states', CbOutcome.tokenExchange d) →
        (googleCallback states' (some c') (some st) none creds').2 =
          CbOutcome.redirectError
            "Invalid session state: session expired or invalid") := by
  have hmain : ∀ (states : StateStore) (code state ge : Option String)
      (creds : Bool) (d : StateData),
      (googleCallback states code state ge creds).2 = CbOutcome.tokenExchange d →
      ∃ st, state = some st ∧ states st = some d ∧
        (googleCallback states code state ge creds).1 st = none := by
    intro states code state ge creds d h
    unfold googleCallback at *
    cases ge with
    | some g => exact absurd h (by simp)
    | none =>
        cases code with
        | none => exact absurd h (by simp)
        | some cv =>
            cases state with
            | none => exact absurd h (by simp)
            | some st =>
                refine ⟨st, rfl, ?_, ?_⟩ <;>
                · cases hs : states st with
                  | none => simp [hs] at h ⊢
                  | some sd =>
                      cases creds with
                      | true =>
                          simp only [hs] at h ⊢
                          simp only [if_true] at h ⊢
                          simp at h
                          simp [h, StateStore.del]
                      | false =>
                          simp [hs] at h
  refine ⟨hmain, ?_⟩
  intro states states' c c' st creds creds' d h
  obtain ⟨st', hst', hsome, hdel⟩ := hmain states (some c) (some st) none creds d
    (by rw [h])
  cases hst'
  have hstates' : states' st = none := by
    have hfst : (googleCallback states (some c) (some st) none creds).1 = states' := by
      rw [h]
    rw [hfst] at hdel
    exact hdel
  simp [googleCallback, hstates']

/-- Witness for C6: replaying a consumed state hits the invalid-state
redirect. -/
theorem oauth_exchange_requires_fresh_state_witness :
    (googleCallback (StateStore.del (StateStore.set StateStore.empty "st1"
        { state := "st1", redirectTo := "r", timestamp := 0 }) "st1")
      (some "code2") (some "st1") none true).2 =
      CbOutcome.redirectError "Invalid session state: session expired or invalid" :=
  oauth_exchange_requires_fresh_state.2
    (StateStore.set StateStore.empty "st1"
      { state := "st1", redirectTo := "r", timestamp := 0 })
    (StateStore.del (StateStore.set StateStore.empty "st1"
      { state := "st1", redirectTo := "r", timestamp := 0 }) "st1")
    "code1" "code2" "st1" true true
    { state := "st1", redirectTo := "r", timestamp := 0 } rfl

/-- C7, counterexample: a state token created at time 0 and presented at
time 600001 — more than `OAUTH_STATE_EXPIRY` after its creation — with no
cleanup sweep in between is accepted by the callback, which proceeds to the
token exchange instead of rejecting it. -/
theorem oauth_aged_state_accepted_without_sweep :
    OAUTH_STATE_EXPIRY <
      600001 - (StateData.timestamp
        { state := "aged", redirectTo := "r", timestamp := 0 }) ∧
    (googleCallback (StateStore.set StateStore.empty "aged"
        { state := "aged", redirectTo := "r", timestamp := 0 })
      (some "authcode") (some "aged") none true).2 =
      CbOutcome.tokenExchange { state := "aged", redirectTo := "r", timestamp := 0 } := by
  refine ⟨by decide, by decide⟩

/-- C7, amended: the callback itself performs no age check; a state token
older than `OAUTH_STATE_EXPIRY` is rejected only once a cleanup sweep
(`cleanupOAuthStates`, run when a new OAuth flow is initiated) has removed
it, after which the callback fails closed with the invalid-state
redirect. -/
theorem oauth_aged_state_rejected_after_sweep (states : StateStore)
    (st : String) (d : StateData) (now : Nat) (code : String)
    (creds : Bool) (hs : states st = some d)
    (hage : OAUTH_STATE_EXPIRY < now - d.timestamp) :
    cleanupOAuthStates states now st = none ∧
    (googleCallback (cleanupOAuthStates states now) (some code) (some st) none
        creds).2 =
      CbOutcome.redirectError
        "Invalid session state: session expired or invalid" := by
  have hclean : cleanupOAuthStates states now st = none := by
    unfold cleanupOAuthStates
    rw [hs]
    simp [hage]
  refine ⟨hclean, ?_⟩
  simp [googleCallback, hclean]

/-- Witness for the amended theorem of C7: after a sweep at time 600001 the
state stored at time 0 is gone and the callback rejects it. -/
theorem oauth_aged_state_rejected_after_sweep_witness :
    (googleCallback (cleanupOAuthStates (StateStore.set StateStore.empty "aged"
        { state := "aged", redirectTo := "r", timestamp := 0 }) 600001)
      (some "authcode") (some "aged") none true).2 =
      CbOutcome.redirectError "Invalid session state: session expired or invalid" :=
  (oauth_aged_state_rejected_after_sweep
    (StateStore.set StateStore.empty "aged"
      { state := "aged", redirectTo := "r", timestamp := 0 })
    "aged" { state := "aged", redirectTo := "r", timestamp := 0 } 600001
    "authcode" true (StateStore.get_set_self ..) (by decide)).2

/-- C8, evidence: for the same syntactically valid email, the
`/send-reset-otp` responses of the existing-account run and the
missing-account run are distinguishable — the success messages (and the
`emailId` field) differ — contradicting the claimed indistinguishability,
and contradicting the handler's own comment that it must not reveal whether
the account exists. -/
theorem reset_response_reveals_account_existence :
    (sendResetOtp OtpStore.empty RateStore.empty (some "User@example.com")
        "password_reset" true "123456" true (some "id1") 0).2.2 ≠
      (sendResetOtp OtpStore.empty RateStore.empty (some "User@example.com")
        "password_reset" false "123456" true (some "id1") 0).2.2 ∧
    (sendResetOtp OtpStore.empty RateStore.empty (some "User@example.com")
        "password_reset" true "123456" true (some "id1") 0).2.2.message =
      some "Password reset code sent successfully" ∧
    (sendResetOtp OtpStore.empty RateStore.empty (some "User@example.com")
        "password_reset" false "123456" true (some "id1") 0).2.2.message =
      some "If an account exists with this email, a password reset code has been sent." := by
  refine ⟨by decide, by decide, by decide⟩

theorem cleanDigits_mk (l : List Char) (hl : l.all Char.isDigit = true) :
    cleanDigits (String.mk l) = l := by
  show l.filter Char.isDigit = l
  exact List.filter_eq_self.mpr (fun a ha => (List.all_eq_true.mp hl) a ha)

theorem all_digits_cons (c : Char) (l : List Char) (hc : c.isDigit = true)
    (hl : l.all Char.isDigit = true) : (c :: l).all Char.isDigit = true := by
  simp [List.all_cons, hc, hl]

/-- C9: validity and formattability agree — `isValidHaitianPhoneNumber`
accepts exactly the inputs `formatPhoneNumberForTwilio` formats — every
formatted result starts with `+509`, and one subscriber digit string fed in
any of the three accepted shapes (international `509…`, local-leading-zero
`0…`, bare `9…`) canonicalizes to the same `+509…` representation. -/
theorem phone_validation_format_canonical :
    (∀ s : String, isValidHaitianPhoneNumber s = true ↔
      (formatPhoneNumberForTwilio s).isSome = true) ∧
    (∀ (s r : String), formatPhoneNumberForTwilio s = some r →
      ∃ rest, r.toList = '+' :: '5' :: '0' :: '9' :: rest) ∧
    (∀ sub : List Char, sub.all Char.isDigit = true →
      (sub.length = 8 →
        formatPhoneNumberForTwilio (String.mk ('5' :: '0' :: '9' :: sub)) =
          some (String.mk ('+' :: '5' :: '0' :: '9' :: sub))) ∧
      (sub.length = 9 → sub.take 1 = ['9'] →
        formatPhoneNumberForTwilio (String.mk ('0' :: sub)) =
          some (String.mk ('+' :: '5' :: '0' :: '9' :: sub)) ∧
        formatPhoneNumberForTwilio (String.mk sub) =
          some (String.mk ('+' :: '5' :: '0' :: '9' :: sub)))) := by
  refine ⟨?_, ?_, ?_⟩
  · intro s
    simp only [isValidHaitianPhoneNumber, formatPhoneNumberForTwilio]
    split_ifs <;> simp
  · intro s r h
    simp only [formatPhoneNumberForTwilio] at h
    split_ifs at h with h1 h2 h3
    · cases h
      refine ⟨(cleanDigits s).drop 3, ?_⟩
      show '+' :: cleanDigits s = _
      conv_lhs => rw [← List.take_append_drop 3 (cleanDigits s)]
      simp [h1.1]
    · cases h
      exact ⟨(cleanDigits s).drop 1, rfl⟩
    · cases h
      exact ⟨cleanDigits s, rfl⟩
  · intro sub hdig
    constructor
    · intro hlen
      have hA : ('5' :: '0' :: '9' :: sub).all Char.isDigit = true :=
        all_digits_cons _ _ (by decide) (all_digits_cons _ _ (by decide)
          (all_digits_cons _ _ (by decide) hdig))
      simp only [formatPhoneNumberForTwilio]
      rw [cleanDigits_mk _ hA]
      rw [if_pos ⟨rfl, by simp [hlen]⟩]
    · intro hlen htake
      cases sub with
      | nil => exact absurd htake (by decide)
      | cons a rest =>
          have htake' : a :: List.take 0 rest = ['9'] := htake
          have ha : a = '9' := by injection htake'
          subst ha
          have hrest : rest.length = 8 := by
            simp only [List.length_cons] at hlen
            omega
          have hdig' : rest.all Char.isDigit = true := by
            simp only [List.all_cons, Bool.and_eq_true] at hdig
            exact hdig.2
          constructor
          · have hA : ('0' :: '9' :: rest).all Char.isDigit = true :=
              all_digits_cons _ _ (by decide) (all_digits_cons _ _ (by decide) hdig')
            simp only [formatPhoneNumberForTwilio]
            rw [cleanDigits_mk _ hA]
            rw [if_neg (fun hcon => by simp [hrest] at hcon),
              if_pos ⟨rfl, by simp [hrest]⟩]
            rfl
          · have hA : ('9' :: rest).all Char.isDigit = true :=
              all_digits_cons _ _ (by decide) hdig'
            simp only [formatPhoneNumberForTwilio]
            rw [cleanDigits_mk _ hA]
            rw [if_neg (fun hcon => by simp [hrest] at hcon),
              if_neg (fun hcon => by simp [hrest] at hcon),
              if_pos ⟨rfl, by simp [hrest]⟩]

/-- Witness for C9: the subscriber digits 912345678 in local and bare shape
canonicalize to the same international representation. -/
theorem phone_validation_format_canonical_witness :
    formatPhoneNumberForTwilio
        (String.mk ('0' :: ['9', '1', '2', '3', '4', '5', '6', '7', '8'])) =
      some (String.mk
        ('+' :: '5' :: '0' :: '9' :: ['9', '1', '2', '3', '4', '5', '6', '7', '8'])) ∧
    formatPhoneNumberForTwilio
        (String.mk ['9', '1', '2', '3', '4', '5', '6', '7', '8']) =
      some (String.mk
        ('+' :: '5' :: '0' :: '9' :: ['9', '1', '2', '3', '4', '5', '6', '7', '8'])) :=
  (phone_validation_format_canonical.2.2
    ['9', '1', '2', '3', '4', '5', '6', '7', '8'] (by decide)).2
    (by decide) (by decide)

end Resend
